import Mathlib

/-!
# Verification of the OnSchedService client core

Shallow embedding of `src/python/onsched_service.py`: the token-lifecycle
logic (`_set_session`), the paginated fetch (`_fetch_data`), the environment
URL selection (`__init__`), and the query/payload builders of `availability`
and `create_service`.  Python runtime failures (KeyError, TypeError,
AttributeError, non-2xx HTTP statuses raised by `raise_for_status`) are
modelled as values of an explicit error type; the mutable fields of the
service object are threaded as explicit state; the HTTP server is a
parameter mapping each request to its response, and the list of issued
requests is returned alongside the result so that "how many calls were
made" is a provable statement.
-/

namespace OnSched

/-- Runtime errors the embedded code can raise: `httpError s` stands for the
`requests.HTTPError` that `raise_for_status()` raises on a non-2xx status
`s`; `keyError k` for a Python `KeyError` on dictionary key `k`; `typeError`
for `TypeError`; `attributeError ty a` for the `AttributeError` raised when
attribute `a` is looked up on a value of type `ty`. -/
inductive PyErr where
  | httpError (status : Nat)
  | keyError (key : String)
  | typeError
  | attributeError (ty attr : String)
deriving DecidableEq, Repr

/-- A decoded JSON page as `_fetch_data` consumes it (source lines
1288-1321): the three envelope fields it reads (`hasMore`, `data`, `total`),
the `count` field it may write, and `rest` standing for all other top-level
fields, which the code never touches.  `Option` is `none` when the field is
absent from the JSON object.  Items are of an arbitrary type `α`. -/
structure Response (α : Type) where
  hasMore : Option Bool
  data : Option (List α)
  total : Option Int
  count : Option Int
  rest : List (String × String)
deriving DecidableEq, Repr

/-- The HTTP server behind `self.session.get`: for the offset carried by the
requested URL, either a non-2xx status (`Except.error s`, which
`raise_for_status` turns into an exception) or a decoded 2xx page. -/
def Server (α : Type) : Type := Nat → Except Nat (Response α)

/-- The URL `_fetch_data` requests for a given offset: source line 1292/1305,
`url + f'&limit=100&offset={offset}'`. -/
def pageUrl (url : String) (offset : Nat) : String :=
  url ++ "&limit=100&offset=" ++ toString offset

/-- Python truthiness of the `data` accumulator variable at source line 1317
(`if data:`): `None` and the empty list are falsy, a non-empty list truthy. -/
def listTruthy {α : Type} : Option (List α) → Bool
  | none => false
  | some l => !l.isEmpty

/-- Source lines 1314-1321: the last decoded page becomes the result; if the
accumulated `data` is truthy, `result['count'] = result['total']` (a
`KeyError` when the last page has no `total`) and `result['data'] = data`. -/
def finalize {α : Type} (last : Response α) (d : Option (List α)) :
    Except PyErr (Response α) :=
  if listTruthy d then
    match last.total with
    | none => Except.error (PyErr.keyError "total")
    | some t => Except.ok { last with count := some t, data := d }
  else
    Except.ok last

/-- The `while has_more` loop of `_fetch_data` (source lines 1303-1312) plus
the final merge (lines 1314-1321), with the mutable locals (`offset`,
`has_more`, `data`, `formatted_response`) passed explicitly, and two traces
accumulated: `reqs`, the URLs of the GET requests issued so far, and
`pages`, the pages decoded so far.  `fuel` bounds the iteration count (the
source enforces no bound; a run needing more fuel yields `none`).  Each
iteration: `offset += 100`; GET (recorded in `reqs`); `raise_for_status`;
decode; `data += formatted_response['data']` (a `KeyError` when the page has
no `data`, a `TypeError` when the accumulator is `None`); `has_more =
formatted_response['hasMore']` (a `KeyError` when absent). -/
def fetchLoop {α : Type} (server : Server α) (url : String) :
    Nat → Nat → Bool → Option (List α) → Response α → List String →
    List (Response α) →
    Option (List String × List (Response α) × Except PyErr (Response α))
  | _, _, false, d, last, reqs, pages => some (reqs, pages, finalize last d)
  | 0, _, true, _, _, _, _ => none
  | fuel' + 1, offset, true, d, _last, reqs, pages =>
    let offset' := offset + 100
    let reqs' := reqs ++ [pageUrl url offset']
    match server offset' with
    | Except.error s => some (reqs', pages, Except.error (PyErr.httpError s))
    | Except.ok page =>
      let pages' := pages ++ [page]
      match page.data with
      | none => some (reqs', pages', Except.error (PyErr.keyError "data"))
      | some pd =>
        match d with
        | none => some (reqs', pages', Except.error PyErr.typeError)
        | some acc =>
          match page.hasMore with
          | none => some (reqs', pages', Except.error (PyErr.keyError "hasMore"))
          | some b =>
            fetchLoop server url fuel' offset' b (some (acc ++ pd)) page reqs' pages'

/-- `_fetch_data` (source lines 1288-1321), with the session-refresh call at
line 1286 factored out (it touches disjoint state, modelled separately).
`offset = 0`; GET; `raise_for_status`; decode; `has_more` defaults to
`False` and `data` to `None` when the first page lacks them (lines
1289-1300); then the loop.  Returns the request trace, the decoded-page
trace, and the result or the raised error; `none` when `fuel` iterations
did not suffice. -/
def fetchData {α : Type} (server : Server α) (url : String) (fuel : Nat) :
    Option (List String × List (Response α) × Except PyErr (Response α)) :=
  match server 0 with
  | Except.error s => some ([pageUrl url 0], [], Except.error (PyErr.httpError s))
  | Except.ok page =>
    fetchLoop server url fuel 0 (page.hasMore.getD false) page.data page
      [pageUrl url 0] [page]

/-- The 3-page server of the specification's pagination scenario: offset 0
answers `hasMore:true, data:[1,2], total:5`; offset 100 answers
`hasMore:true, data:[3,4], total:5`; offset 200 answers `hasMore:false,
data:[5], total:5`. -/
def threePageServer : Server Int := fun offset =>
  if offset = 0 then Except.ok ⟨some true, some [1, 2], some 5, none, []⟩
  else if offset = 100 then Except.ok ⟨some true, some [3, 4], some 5, none, []⟩
  else if offset = 200 then Except.ok ⟨some false, some [5], some 5, none, []⟩
  else Except.error 404

/-- The accumulated `data` after a run that decoded `first` and then the
pages of `tail`: `None` when the first page had no `data` field, otherwise
the first page's items followed by every later page's items in page order. -/
def accData {α : Type} (first : Response α) (tail : List (Response α)) :
    Option (List α) :=
  first.data.map (fun l0 => l0 ++ (tail.map (fun p => p.data.getD [])).flatten)

/-- A 2-page server whose second page has no `data` field. -/
def absentDataServer : Server Int := fun offset =>
  if offset = 0 then Except.ok ⟨some true, some [1], some 5, none, []⟩
  else Except.ok ⟨some false, none, some 5, none, []⟩

/-- A 1-page server answering `hasMore:false, data:[], total:7`. -/
def emptyDataServer : Server Int := fun _ =>
  Except.ok ⟨some false, some [], some 7, none, []⟩

end OnSched

namespace OnSched

theorem pageUrl_eq (url : String) (offset : Nat) :
    pageUrl url offset = url ++ ("&limit=100&offset=" ++ toString offset) :=
  String.append_assoc url "&limit=100&offset=" (toString offset)

/-- **C1.** On the specification's 3-page scenario (`hasMore:true, data:[1,2],
total:5`; `hasMore:true, data:[3,4], total:5`; `hasMore:false, data:[5],
total:5`), `_fetch_data` issues exactly three GET requests whose URLs carry
`limit=100` with offsets `0`, `100` and `200`, and returns the last page with
its `data` field equal to `[1,2,3,4,5]` (pages concatenated in fetch order)
and its `count` field equal to `5`. -/
theorem fetchData_three_pages (url : String) :
    fetchData threePageServer url 10 =
      some ([url ++ "&limit=100&offset=0", url ++ "&limit=100&offset=100",
             url ++ "&limit=100&offset=200"],
        [⟨some true, some [1, 2], some 5, none, []⟩,
         ⟨some true, some [3, 4], some 5, none, []⟩,
         ⟨some false, some [5], some 5, none, []⟩],
        Except.ok ⟨some false, some [1, 2, 3, 4, 5], some 5, some 5, []⟩) := by
  have e0 : url ++ "&limit=100&offset=0" = pageUrl url 0 :=
    (String.append_assoc url "&limit=100&offset=" "0").symm
  have e1 : url ++ "&limit=100&offset=100" = pageUrl url 100 :=
    (String.append_assoc url "&limit=100&offset=" "100").symm
  have e2 : url ++ "&limit=100&offset=200" = pageUrl url 200 :=
    (String.append_assoc url "&limit=100&offset=" "200").symm
  rw [e0, e1, e2]
  rfl

/-- **C5.** In any state of the pagination loop (any accumulated data `d`,
any requests `reqs` and pages `pages` already gathered from the earlier
successful pages), if the GET for the next page answers a non-2xx status
`s`, the whole fetch stops at once with an error carrying that status: the
outcome is `Except.error (PyErr.httpError s)`, which holds no `Response`,
so none of the data accumulated in `d` is surfaced to the caller. -/
theorem fetchLoop_http_error_aborts {α : Type} (server : Server α)
    (url : String) (fuel offset : Nat) (d : Option (List α))
    (last : Response α) (reqs : List String) (pages : List (Response α))
    (s : Nat) (hs : server (offset + 100) = Except.error s) :
    fetchLoop server url (fuel + 1) offset true d last reqs pages =
      some (reqs ++ [pageUrl url (offset + 100)], pages,
        Except.error (PyErr.httpError s)) := by
  simp [fetchLoop, hs]

/-- **C5 witness.** The loop state after one successful page, hitting a 500
on the next page. -/
theorem fetchLoop_http_error_aborts_witness :
    fetchLoop (fun _ => (Except.error 500 : Except Nat (Response Int))) "u" 1 0
        true (some [1, 2]) ⟨some true, some [1, 2], some 5, none, []⟩
        ["u&limit=100&offset=0"] [⟨some true, some [1, 2], some 5, none, []⟩] =
      some (["u&limit=100&offset=0", "u&limit=100&offset=100"],
        [⟨some true, some [1, 2], some 5, none, []⟩],
        Except.error (PyErr.httpError 500)) :=
  fetchLoop_http_error_aborts _ "u" 0 0 _ _ _ _ 500 rfl

/-- **C4 counterexample.** A second page with no `data` field does not
contribute "no items": the fetch fails with a `KeyError` on `'data'`
(source line 1310 reads `formatted_response['data']` with no default). -/
theorem fetchData_absent_data_raises :
    fetchData absentDataServer "u" 5 =
      some (["u&limit=100&offset=0", "u&limit=100&offset=100"],
        [⟨some true, some [1], some 5, none, []⟩,
         ⟨some false, none, some 5, none, []⟩],
        Except.error (PyErr.keyError "data")) := by
  rfl

/-- **C4 (amended).** Defaults for absent `hasMore`/`data` apply only to the
first page.  For every page fetched after the first (any loop state with a
list accumulator), an absent `data` field raises `KeyError 'data'`, and an
absent `hasMore` field (with `data` present) raises `KeyError 'hasMore'`;
neither is treated as "no items" or "false". -/
theorem fetchLoop_later_page_strict {α : Type} (server : Server α)
    (url : String) (fuel offset : Nat) (acc : List α) (last page : Response α)
    (reqs : List String) (pages : List (Response α))
    (hs : server (offset + 100) = Except.ok page)
    (habs : page.data = none ∨ page.hasMore = none) :
    fetchLoop server url (fuel + 1) offset true (some acc) last reqs pages =
      some (reqs ++ [pageUrl url (offset + 100)], pages ++ [page],
        Except.error (match page.data with
          | none => PyErr.keyError "data"
          | some _ => PyErr.keyError "hasMore")) := by
  rcases hd : page.data with _ | pd
  · simp [fetchLoop, hs, hd]
  · rcases habs with h | h
    · rw [hd] at h; cases h
    · simp [fetchLoop, hs, hd, h]

/-- **C4 (amended) witness.** A later page that is an empty JSON object:
the step fails with `KeyError 'data'`. -/
theorem fetchLoop_later_page_strict_witness :
    fetchLoop (fun _ => Except.ok (⟨none, none, none, none, []⟩ : Response Int))
        "u" 1 0 true (some []) ⟨none, none, none, none, []⟩ [] [] =
      some (["u&limit=100&offset=100"], [⟨none, none, none, none, []⟩],
        Except.error (PyErr.keyError "data")) :=
  fetchLoop_later_page_strict _ "u" 0 0 [] _ _ [] [] rfl (Or.inl rfl)

/-- Invariant of the pagination loop: a run of `fetchLoop` that returns
normally decoded some (possibly empty) list `tail` of further pages, each of
which carried a `data` field, and its value is `finalize` applied to the
last decoded page and to the accumulator extended with those pages' items
in fetch order. -/
theorem fetchLoop_ok_spec {α : Type} (server : Server α) (url : String) :
    ∀ (fuel offset : Nat) (hm : Bool) (d : Option (List α)) (last : Response α)
      (reqs reqs' : List String) (pages pages' : List (Response α))
      (r : Response α),
      fetchLoop server url fuel offset hm d last reqs pages =
        some (reqs', pages', Except.ok r) →
      ∃ tail : List (Response α),
        pages' = pages ++ tail ∧
        (∀ p ∈ tail, p.data.isSome = true) ∧
        finalize (tail.getLastD last)
            (Option.map
              (fun a => a ++ (tail.map (fun p => p.data.getD [])).flatten) d) =
          Except.ok r := by
  intro fuel
  induction fuel with
  | zero =>
    intro offset hm d last reqs reqs' pages pages' r h
    cases hm
    · simp only [fetchLoop, Option.some.injEq, Prod.mk.injEq] at h
      obtain ⟨hr, hp, hf⟩ := h
      refine ⟨[], by simp [hp], by simp, ?_⟩
      have hid : Option.map (fun a => a ++ ([] : List α)) d = d := by
        cases d <;> simp
      simpa [hid] using hf
    · simp [fetchLoop] at h
  | succ fuel ih =>
    intro offset hm d last reqs reqs' pages pages' r h
    cases hm
    · simp only [fetchLoop, Option.some.injEq, Prod.mk.injEq] at h
      obtain ⟨hr, hp, hf⟩ := h
      refine ⟨[], by simp [hp], by simp, ?_⟩
      have hid : Option.map (fun a => a ++ ([] : List α)) d = d := by
        cases d <;> simp
      simpa [hid] using hf
    · rcases hs : server (offset + 100) with s | page
      · simp [fetchLoop, hs] at h
      · rcases hd : page.data with _ | pd
        · simp [fetchLoop, hs, hd] at h
        · rcases d with _ | acc
          · simp [fetchLoop, hs, hd] at h
          · rcases hpm : page.hasMore with _ | b
            · simp [fetchLoop, hs, hd, hpm] at h
            · have h' : fetchLoop server url fuel (offset + 100) b
                  (some (acc ++ pd)) page (reqs ++ [pageUrl url (offset + 100)])
                  (pages ++ [page]) = some (reqs', pages', Except.ok r) := by
                simpa [fetchLoop, hs, hd, hpm] using h
              obtain ⟨tail, hp, hdat, hf⟩ := ih _ _ _ _ _ _ _ _ _ h'
              refine ⟨page :: tail, ?_, ?_, ?_⟩
              · simpa [List.append_assoc] using hp
              · intro p hmem
                rw [List.mem_cons] at hmem
                rcases hmem with rfl | hmem
                · simp [hd]
                · exact hdat p hmem
              · simp only [List.getLastD_cons, List.map_cons, List.flatten_cons,
                  hd, Option.getD_some, Option.map_some']
                simpa [List.append_assoc] using hf

/-- **C3 counterexample.** A terminating fetch whose single page carried a
`data` field holding the empty list: Python's `if data:` is false on `[]`
(source line 1317), so the page is returned verbatim — its `count` stays
absent even though the page reported `total = 7`, contradicting the claim
for runs whose accumulated `data` is empty. -/
theorem fetchData_empty_data_not_merged :
    fetchData emptyDataServer "u" 1 =
      some (["u&limit=100&offset=0"],
        [⟨some false, some [], some 7, none, []⟩],
        Except.ok ⟨some false, some ([] : List Int), some 7, none, []⟩) ∧
      (⟨some false, some ([] : List Int), some 7, none, []⟩ : Response Int).count ≠
        some 7 := by
  exact ⟨rfl, by decide⟩

/-- **C3 (amended).** Every terminating paginated fetch that returns
normally returns a value built from the last decoded page: when the
accumulated `data` is *truthy* (non-`None` and non-empty) the result is the
last page with its `data` replaced by the concatenation of every page's
`data` in page order and its `count` set to the last page's `total` (which
must then be present — an absent `total` raises a `KeyError` instead);
when the accumulated `data` is `None` or the empty list, the last page is
returned verbatim. -/
theorem fetchData_ok_merges {α : Type} (server : Server α) (url : String)
    (fuel : Nat) (reqs : List String) (pages : List (Response α))
    (r : Response α)
    (h : fetchData server url fuel = some (reqs, pages, Except.ok r)) :
    ∃ first tail, pages = first :: tail ∧
      (∀ p ∈ tail, p.data.isSome = true) ∧
      (listTruthy (accData first tail) = true →
        ∃ t, (tail.getLastD first).total = some t ∧
          r = { tail.getLastD first with
                count := some t,
                data := accData first tail }) ∧
      (listTruthy (accData first tail) = false → r = tail.getLastD first) := by
  rcases hs : server 0 with s | page
  · simp [fetchData, hs] at h
  · have h' : fetchLoop server url fuel 0 (page.hasMore.getD false) page.data
        page [pageUrl url 0] [page] = some (reqs, pages, Except.ok r) := by
      simpa [fetchData, hs] using h
    obtain ⟨tail, hp, hdat, hf⟩ :=
      fetchLoop_ok_spec server url fuel 0 _ _ _ _ _ _ _ _ h'
    have hacc : Option.map
        (fun a => a ++ (tail.map (fun p => p.data.getD [])).flatten) page.data =
        accData page tail := rfl
    rw [hacc] at hf
    refine ⟨page, tail, by simpa using hp, hdat, ?_, ?_⟩
    · intro ht
      unfold finalize at hf
      rw [ht] at hf
      simp only [if_true] at hf
      rcases htot : (tail.getLastD page).total with _ | t
      · rw [htot] at hf; cases hf
      · rw [htot] at hf
        simp only [Except.ok.injEq] at hf
        refine ⟨t, rfl, ?_⟩
        simp only [htot]
        exact hf.symm
    · intro ht
      unfold finalize at hf
      rw [ht] at hf
      simp only [Bool.false_eq_true, if_false] at hf
      simp only [Except.ok.injEq] at hf
      exact hf.symm

/-- **C3 (amended) witness.** The 3-page scenario instantiates the merge
theorem: the accumulated data `[1,2,3,4,5]` is truthy, the last page's
`total` is 5, and the result is the last page with `data` replaced and
`count := 5`. -/
theorem fetchData_ok_merges_witness :
    ∃ first tail,
      ([⟨some true, some [1, 2], some 5, none, []⟩,
        ⟨some true, some [3, 4], some 5, none, []⟩,
        ⟨some false, some [5], some 5, none, []⟩] : List (Response Int)) =
        first :: tail ∧
      (∀ p ∈ tail, p.data.isSome = true) ∧
      (listTruthy (accData first tail) = true →
        ∃ t, (tail.getLastD first).total = some t ∧
          (⟨some false, some [1, 2, 3, 4, 5], some 5, some 5, []⟩ : Response Int) =
            { tail.getLastD first with
              count := some t,
              data := accData first tail }) ∧
      (listTruthy (accData first tail) = false →
        (⟨some false, some [1, 2, 3, 4, 5], some 5, some 5, []⟩ : Response Int) =
          tail.getLastD first) :=
  fetchData_ok_merges threePageServer "u" 10 _ _ _ rfl

/-- **C7.** When the first page answers with no `data` field and its
`hasMore` is false or absent, exactly one GET request is made and the
decoded page is returned verbatim: no `count` is synthesized and no field
is modified. -/
theorem fetchData_no_data_verbatim {α : Type} (server : Server α)
    (url : String) (fuel : Nat) (p0 : Response α)
    (h0 : server 0 = Except.ok p0) (hd : p0.data = none)
    (hm : p0.hasMore.getD false = false) :
    fetchData server url fuel = some ([pageUrl url 0], [p0], Except.ok p0) := by
  simp only [fetchData, h0, hm, hd]
  simp [fetchLoop, finalize, listTruthy]

/-- **C7 witness.** A single-object response (say a bare location record):
returned unmodified after one request. -/
theorem fetchData_no_data_verbatim_witness :
    fetchData (fun _ => Except.ok (⟨none, none, none, none, [("id", "7")]⟩ : Response Int))
        "u" 3 =
      some (["u&limit=100&offset=0"], [⟨none, none, none, none, [("id", "7")]⟩],
        Except.ok ⟨none, none, none, none, [("id", "7")]⟩) :=
  fetchData_no_data_verbatim _ "u" 3 _ rfl rfl rfl

end OnSched

namespace OnSched

/-- The OAuth2 token as `_set_session` consumes it: the dictionary
`self.session.token` with its opaque access token and its `expires_at`
epoch timestamp (compared with `>` against the current wall-clock
timestamp at source line 1493). -/
structure OToken where
  access_token : String
  expires_at : Int
deriving DecidableEq, Repr

/-- An `OAuth2Session` object as `_set_session` observes it: `token` is
`none` for a session that holds no token yet (a freshly constructed
`OAuth2Session`). -/
structure OSession where
  token : Option OToken
deriving DecidableEq, Repr

/-- What one call of `_set_session` (source lines 1482-1501) did:
`session` is the value of `self.session` when the call ends (normally or by
exception), `fetchCalls` how many times `fetch_token` hit the token
endpoint, and `err` the propagated token-fetch error (`none` for a normal
return). -/
structure SetSessionResult where
  session : Option OSession
  fetchCalls : Nat
  err : Option String
deriving DecidableEq, Repr

/-- The guard of source lines 1491-1493, Python truthiness included:
`self.session and self.session.token and
(self.session.token['expires_at'] > unix_timestamp)` — `self.session` is
truthy iff not `None`, the token dictionary iff present. -/
def tokenValid : Option OSession → Int → Bool
  | none, _ => false
  | some s, now =>
    match s.token with
    | none => false
    | some t => decide (t.expires_at > now)

/-- `_set_session` (source lines 1482-1501): when the guard holds, return
with no side effect; otherwise build a fresh `OAuth2Session` (which holds
no token), assign it to `self.session`, and call `fetch_token`, whose
outcome is the parameter `fetch` — on success the new token is installed
into the fresh session, on failure the exception propagates with
`self.session` left as the fresh token-less object. -/
def set_session (session : Option OSession) (now : Int)
    (fetch : Except String OToken) : SetSessionResult :=
  if tokenValid session now then
    { session := session, fetchCalls := 0, err := none }
  else
    match fetch with
    | Except.ok tk => { session := some ⟨some tk⟩, fetchCalls := 1, err := none }
    | Except.error e => { session := some ⟨none⟩, fetchCalls := 1, err := some e }

end OnSched

namespace OnSched

/-- A valid guard makes `_set_session` a no-op. -/
theorem set_session_valid (st : Option OSession) (now : Int)
    (fetch : Except String OToken) (hv : tokenValid st now = true) :
    set_session st now fetch = ⟨st, 0, none⟩ := by
  simp [set_session, hv]

/-- An invalid guard with a successful fetch installs the fetched token. -/
theorem set_session_invalid_ok (st : Option OSession) (now : Int) (tk : OToken)
    (hv : tokenValid st now = false) :
    set_session st now (Except.ok tk) = ⟨some ⟨some tk⟩, 1, none⟩ := by
  simp [set_session, hv]

/-- **C2.** (i) With a token installed whose `expires_at` is strictly above
the current timestamp, `_set_session` performs zero token-fetch calls and
leaves the session untouched; (ii) with the token absent (no session, or a
session without a token) or expired (`expires_at ≤ now`), it performs
exactly one token-fetch call, and a successful fetch installs exactly the
fetched token; (iii) hence after any call whose fetch produced a token
valid at `now`, a second call at the same instant is a no-op with zero
network calls. -/
theorem set_session_ensure_valid (st : Option OSession) (now : Int)
    (fetch fetch2 : Except String OToken) :
    ((∃ s t, st = some s ∧ s.token = some t ∧ t.expires_at > now) →
      set_session st now fetch = ⟨st, 0, none⟩) ∧
    ((st = none ∨ (∃ s, st = some s ∧ s.token = none) ∨
        (∃ s t, st = some s ∧ s.token = some t ∧ t.expires_at ≤ now)) →
      (set_session st now fetch).fetchCalls = 1 ∧
      (∀ tk, fetch = Except.ok tk →
        (set_session st now fetch).session = some ⟨some tk⟩)) ∧
    (∀ tk, fetch = Except.ok tk → tk.expires_at > now →
      set_session (set_session st now fetch).session now fetch2 =
        ⟨(set_session st now fetch).session, 0, none⟩) := by
  refine ⟨?_, ?_, ?_⟩
  · rintro ⟨s, t, rfl, hto, hlt⟩
    simp [set_session, tokenValid, hto, hlt]
  · intro habs
    have hv : tokenValid st now = false := by
      rcases habs with rfl | ⟨s, rfl, hto⟩ | ⟨s, t, rfl, hto, hle⟩
      · rfl
      · simp [tokenValid, hto]
      · simp [tokenValid, hto, not_lt.mpr hle]
    constructor
    · cases fetch <;> simp [set_session, hv]
    · rintro tk rfl
      simp [set_session, hv]
  · rintro tk rfl hlt
    by_cases hv : tokenValid st now = true
    · rw [set_session_valid st now _ hv]
      exact set_session_valid st now fetch2 hv
    · simp only [Bool.not_eq_true] at hv
      rw [set_session_invalid_ok st now tk hv]
      have hv2 : tokenValid (some ⟨some tk⟩) now = true := by
        simp [tokenValid, hlt]
      exact set_session_valid _ now fetch2 hv2

/-- **C6 counterexample.** A session holding an expired token, hit by a
failing token fetch: `self.session` is *not* left as the object it was
before the attempt — line 1497 (`self.session = OAuth2Session(client=client)`)
runs before `fetch_token`, so the prior session object (with its expired
token) has already been replaced by a fresh token-less one when the fetch
fails. -/
theorem set_session_failure_replaces_session :
    set_session (some ⟨some ⟨"old", 0⟩⟩) 5 (Except.error "boom") =
      ⟨some ⟨none⟩, 1, some "boom"⟩ ∧
    (some (⟨some ⟨"old", 0⟩⟩ : OSession) ≠ some (⟨none⟩ : OSession)) := by
  exact ⟨rfl, by decide⟩

/-- **C6 (amended).** For every state in which a refresh is attempted
(token absent or expired), a failing token fetch propagates the error to
the caller and installs no token — but the session attribute does not keep
its prior value: it has already been replaced by a freshly constructed
token-less session object, so the caller observes `some ⟨none⟩`, not the
state from before the attempt. -/
theorem set_session_failure (st : Option OSession) (now : Int) (e : String)
    (hv : tokenValid st now = false) :
    set_session st now (Except.error e) = ⟨some ⟨none⟩, 1, some e⟩ := by
  simp [set_session, hv]

/-- **C6 (amended) witness.** An uninitialized session (`self.session =
None`) with an unreachable token endpoint. -/
theorem set_session_failure_witness :
    set_session none 0 (Except.error "connection refused") =
      ⟨some ⟨none⟩, 1, some "connection refused"⟩ :=
  set_session_failure none 0 "connection refused" rfl

end OnSched

namespace OnSched

/-- The four URL constants of the class (source lines 9-12). -/
def SANDBOX_TOKEN_URL : String := "https://sandbox-identity.onsched.com/connect/token"

/-- Source line 10. -/
def SANDBOX_API_URL_BASE : String := "https://sandbox-api.onsched.com"

/-- Source line 11. -/
def PROD_TOKEN_URL : String := "https://identity.onsched.com/connect/token"

/-- Source line 12. -/
def PROD_API_URL_BASE : String := "https://api.onsched.com"

/-- The three URL attributes `__init__` computes. -/
structure ServiceUrls where
  token_url : String
  consumer_api : String
  setup_api : String
deriving DecidableEq, Repr

/-- The URL selection of `__init__` (source lines 29-36): sandbox URLs are
assigned first, then overwritten iff `environment == 'live'`. -/
def initUrls (environment : String) : ServiceUrls :=
  let u : ServiceUrls :=
    { token_url := SANDBOX_TOKEN_URL,
      consumer_api := SANDBOX_API_URL_BASE ++ "/consumer/v1",
      setup_api := SANDBOX_API_URL_BASE ++ "/setup/v1" }
  if environment = "live" then
    { token_url := PROD_TOKEN_URL,
      consumer_api := PROD_API_URL_BASE ++ "/consumer/v1",
      setup_api := PROD_API_URL_BASE ++ "/setup/v1" }
  else u

/-- **C8.** The value `'live'` selects the production token URL and
production consumer/setup API bases; every other value of `environment`
(including `'sandbox'` and any unrecognized string) selects the sandbox
token URL and sandbox consumer/setup API bases. -/
theorem initUrls_environment (environment : String) :
    initUrls environment =
      if environment = "live" then
        ⟨"https://identity.onsched.com/connect/token",
         "https://api.onsched.com/consumer/v1",
         "https://api.onsched.com/setup/v1"⟩
      else
        ⟨"https://sandbox-identity.onsched.com/connect/token",
         "https://sandbox-api.onsched.com/consumer/v1",
         "https://sandbox-api.onsched.com/setup/v1"⟩ := by
  by_cases h : environment = "live" <;>
    simp [initUrls, h, SANDBOX_TOKEN_URL, SANDBOX_API_URL_BASE,
      PROD_TOKEN_URL, PROD_API_URL_BASE]

end OnSched

namespace OnSched

/-- A value passed for `start_date`/`end_date` in `availability` (source
lines 224-235): a `datetime.date` object (carrying the string its
`isoformat()` yields), a string, or a value of any other type (on which
the code executes `raise TypeError`). -/
inductive PyDate where
  | date (iso : String)
  | str (s : String)
  | other
deriving DecidableEq, Repr

/-- The attributes a Python `list` object exposes (its public methods):
`join` is not among them, so `resource_ids.join(',')` at source line 251
raises `AttributeError`. -/
def listMethods : List String :=
  ["append", "clear", "copy", "count", "extend", "index", "insert", "pop",
   "remove", "reverse", "sort"]

/-- Attribute lookup on a Python `list` object, yielding `AttributeError`
for a name the type does not define. -/
def pyListGetAttr (attr : String) : Except PyErr Unit :=
  if attr ∈ listMethods then Except.ok () else
    Except.error (PyErr.attributeError "list" attr)

/-- Truthiness of the `resource_ids` argument (default `None`): `None` and
the empty list are falsy. -/
def optListTruthy (v : Option (List String)) : Bool :=
  match v with
  | none => false
  | some l => !l.isEmpty

/-- `urllib.parse.urlencode` on a string-valued mapping, modelled without
percent-escaping (none of the claims depends on the escaping). -/
def urlencode (m : List (String × String)) : String :=
  String.intercalate "&" (m.map fun kv => kv.1 ++ "=" ++ kv.2)

/-- The URL-building part of `availability` (source lines 224-263): date
validation, then `params_map` built by the chain of truthiness guards in
source order, then `urlencode`, appended to the availability path.  The
`resource_ids` guard evaluates `resource_ids.join(',')`: attribute lookup
of `join` on the list object, which raises before any value is produced
(the string a `join` would have produced is modelled by
`String.intercalate`, unreachable).  Returns the final URL handed to
`_fetch_data`, or the error raised while building it. -/
def availabilityUrl (consumer_api service_id : String)
    (start_date end_date : PyDate) (start_time end_time : Int)
    (location_id resource_id resource_group_id : String)
    (resource_ids : Option (List String))
    (duration tz_offset day_availability : Int)
    (first_day_available : Bool) : Except PyErr String := do
  let startDate ← match start_date with
    | PyDate.date iso => pure iso
    | PyDate.str s => pure s
    | PyDate.other => Except.error PyErr.typeError
  let endDate ← match end_date with
    | PyDate.date iso => pure iso
    | PyDate.str s => pure s
    | PyDate.other => Except.error PyErr.typeError
  let base := consumer_api ++ "/availability/" ++ service_id ++ "/" ++
    startDate ++ "/" ++ endDate ++ "?"
  let m : List (String × String) := []
  let m := if start_time ≠ 0 then m ++ [("startTime", toString start_time)] else m
  let m := if end_time ≠ 0 then m ++ [("endTime", toString end_time)] else m
  let m := if location_id ≠ "" then m ++ [("locationId", location_id)] else m
  let m := if resource_id ≠ "" then m ++ [("resourceId", resource_id)] else m
  let m := if resource_group_id ≠ "" then
    m ++ [("resourceGroupId", resource_group_id)] else m
  let m ← if optListTruthy resource_ids then do
      let _ ← pyListGetAttr "join"
      pure (m ++ [("resourceIds",
        String.intercalate "," (resource_ids.getD []))])
    else pure m
  let m := if duration ≠ 0 then m ++ [("duration", toString duration)] else m
  let m := if tz_offset ≠ 0 then m ++ [("tzOffset", toString tz_offset)] else m
  let m := if day_availability ≠ 0 then
    m ++ [("dayAvailability", toString day_availability)] else m
  let m := if first_day_available then
    m ++ [("first_day_available", "true")] else m
  pure (base ++ urlencode m)

/-- The whole `availability` operation (source line 265 delegates to
`_fetch_data`): when URL building raises, the exception propagates and no
GET request is issued (empty request trace); otherwise `_fetch_data` runs
on the built URL. -/
def availabilityCall (consumer_api service_id : String)
    (start_date end_date : PyDate) (start_time end_time : Int)
    (location_id resource_id resource_group_id : String)
    (resource_ids : Option (List String))
    (duration tz_offset day_availability : Int)
    (first_day_available : Bool) (server : Server Int) (fuel : Nat) :
    Option (List String × List (Response Int) × Except PyErr (Response Int)) :=
  match availabilityUrl consumer_api service_id start_date end_date
      start_time end_time location_id resource_id resource_group_id
      resource_ids duration tz_offset day_availability first_day_available with
  | Except.error e => some ([], [], Except.error e)
  | Except.ok u => fetchData server u fuel

end OnSched

namespace OnSched

/-- **C9.** For every call of `availability` with well-typed dates and a
non-empty list as `resource_ids`, the call raises `AttributeError` (a
Python `list` has no `join` method) while building the query parameters:
the request trace is empty, so no HTTP request to the availability
endpoint was issued. -/
theorem availability_resource_ids_attribute_error
    (consumer_api service_id : String) (start_date end_date : PyDate)
    (start_time end_time : Int)
    (location_id resource_id resource_group_id : String)
    (ids : List String) (duration tz_offset day_availability : Int)
    (first_day_available : Bool) (server : Server Int) (fuel : Nat)
    (hsd : start_date ≠ PyDate.other) (hed : end_date ≠ PyDate.other)
    (hne : ids ≠ []) :
    availabilityCall consumer_api service_id start_date end_date
        start_time end_time location_id resource_id resource_group_id
        (some ids) duration tz_offset day_availability first_day_available
        server fuel =
      some ([], [], Except.error (PyErr.attributeError "list" "join")) := by
  have hju : pyListGetAttr "join" =
      Except.error (PyErr.attributeError "list" "join") := by rfl
  have ht : optListTruthy (some ids) = true := by
    simp [optListTruthy, hne]
  cases start_date with
  | other => exact absurd rfl hsd
  | date iso =>
    cases end_date with
    | other => exact absurd rfl hed
    | date iso2 =>
      simp [availabilityCall, availabilityUrl, ht, hju]
    | str s2 =>
      simp [availabilityCall, availabilityUrl, ht, hju]
  | str s =>
    cases end_date with
    | other => exact absurd rfl hed
    | date iso2 =>
      simp [availabilityCall, availabilityUrl, ht, hju]
    | str s2 =>
      simp [availabilityCall, availabilityUrl, ht, hju]

/-- **C9 witness.** A concrete availability call with one resource id. -/
theorem availability_resource_ids_attribute_error_witness :
    availabilityCall "https://sandbox-api.onsched.com/consumer/v1" "svc"
        (PyDate.str "2021-01-01") (PyDate.str "2021-01-02") 0 0 "" "" ""
        (some ["r1"]) 0 0 0 false threePageServer 10 =
      some ([], [], Except.error (PyErr.attributeError "list" "join")) :=
  availability_resource_ids_attribute_error
    "https://sandbox-api.onsched.com/consumer/v1" "svc"
    (PyDate.str "2021-01-01") (PyDate.str "2021-01-02") 0 0 "" "" ""
    ["r1"] 0 0 0 false threePageServer 10
    (by decide) (by decide) (by decide)

end OnSched

namespace OnSched

/-- A JSON-ish Python value as `create_service` stores into dictionaries:
a string, an integer, or a nested dictionary. -/
inductive JVal where
  | s (v : String)
  | i (v : Int)
  | obj (fields : List (String × JVal))

/-- A Python dictionary as an insertion-ordered association list.
`dset d k v` is `d[k] = v`: replace in place when the key exists, append
otherwise. -/
def dset : List (String × JVal) → String → JVal → List (String × JVal)
  | [], k, v => [(k, v)]
  | kv :: rest, k, v =>
    if kv.1 = k then (k, v) :: rest else kv :: dset rest k v

/-- `d[k]` as an expression: the stored value, or `KeyError k`. -/
def dget : List (String × JVal) → String → Except PyErr JVal
  | [], k => Except.error (PyErr.keyError k)
  | kv :: rest, k => if kv.1 = k then Except.ok kv.2 else dget rest k

/-- `d[k] = v` guarded by a Python truthiness test, as the source's
`if cond: payload[k] = value` lines. -/
def dsetIf (c : Prop) [Decidable c] (d : List (String × JVal)) (k : String)
    (v : JVal) : List (String × JVal) :=
  if c then dset d k v else d

/-- The Python string of a bool option as the source writes it:
`'true' if b else 'false'`. -/
def pyBoolStr (b : Bool) : String := if b then "true" else "false"

/-- `create_service` (source lines 821-924) up to the point where the
payload would be POSTed: builds `options` (lines 889-898) and `fee` (lines
900-907) when any of their inputs is truthy, assembles `payload` (lines
909-920), and then — the slip under scrutiny — executes the bare
expression statement `payload['fee']` when the fee dictionary is truthy
(line 922), a lookup whose `KeyError` propagates since no `'fee'` key was
ever assigned.  Returns the payload `_post_data` would receive, or the
raised error. -/
def create_service (name description : String) (duration : Int)
    (location_id service_group_id : String)
    (public default_service duration_select : Bool)
    (duration_interval duration_min duration_max padding : Int)
    (consumer_padding : Bool) (fee_amount : Int) (fee_taxable : Bool)
    (cancellation_fee_amount : Int)
    (cancellation_fee_taxable nonrefundable : Bool) :
    Except PyErr (List (String × JVal)) :=
  let options : List (String × JVal) :=
    if default_service = true ∨ duration_select = true ∨
        duration_interval ≠ 0 ∨ duration_min ≠ 0 ∨ duration_max ≠ 0 ∨
        padding ≠ 0 ∨ consumer_padding = true then
      [("durationInterval", JVal.i duration_interval),
       ("durationMin", JVal.i duration_min),
       ("durationMax", JVal.i duration_max),
       ("padding", JVal.i padding),
       ("durationSelect", JVal.s (pyBoolStr duration_select)),
       ("durationService", JVal.s (pyBoolStr default_service)),
       ("consumerPadding", JVal.s (pyBoolStr consumer_padding))]
    else []
  let fee : List (String × JVal) :=
    if fee_amount ≠ 0 ∨ fee_taxable = true ∨ cancellation_fee_amount ≠ 0 ∨
        cancellation_fee_taxable = true ∨ nonrefundable = true then
      [("feeAmount", JVal.i fee_amount),
       ("cancellationFeeAmount", JVal.i cancellation_fee_amount),
       ("feeTaxable", JVal.s (pyBoolStr fee_taxable)),
       ("cancellationFeeTaxable", JVal.s (pyBoolStr cancellation_fee_taxable)),
       ("nonRefundable", JVal.s (pyBoolStr nonrefundable))]
    else []
  let payload : List (String × JVal) :=
    [("name", JVal.s name), ("description", JVal.s description)]
  let payload := dsetIf (location_id ≠ "") payload "locationId" (JVal.s location_id)
  let payload := dsetIf (duration ≠ 0) payload "duration" (JVal.i duration)
  let payload := dsetIf (service_group_id ≠ "") payload "serviceGroupId"
    (JVal.s service_group_id)
  let payload := dsetIf (public = true) payload "public" (JVal.s "true")
  let payload := dsetIf (options.isEmpty = false) payload "options" (JVal.obj options)
  if fee.isEmpty = false then
    match dget payload "fee" with
    | Except.error e => Except.error e
    | Except.ok _ => Except.ok payload
  else
    Except.ok payload

/-- The whole `create_service` operation (source line 924 delegates to
`_post_data`): the list of payloads POSTed (empty when the builder raised,
since the exception propagates before `_post_data` runs) together with the
outcome. -/
def create_serviceCall (name description : String) (duration : Int)
    (location_id service_group_id : String)
    (public default_service duration_select : Bool)
    (duration_interval duration_min duration_max padding : Int)
    (consumer_padding : Bool) (fee_amount : Int) (fee_taxable : Bool)
    (cancellation_fee_amount : Int)
    (cancellation_fee_taxable nonrefundable : Bool) :
    List (List (String × JVal)) × Except PyErr (List (String × JVal)) :=
  match create_service name description duration location_id service_group_id
      public default_service duration_select duration_interval duration_min
      duration_max padding consumer_padding fee_amount fee_taxable
      cancellation_fee_amount cancellation_fee_taxable nonrefundable with
  | Except.error e => ([], Except.error e)
  | Except.ok payload => ([payload], Except.ok payload)

theorem dget_dset_ne (d : List (String × JVal)) (k k' : String) (v : JVal)
    (h : k' ≠ k) : dget (dset d k v) k' = dget d k' := by
  induction d with
  | nil => simp [dset, dget, Ne.symm h]
  | cons kv rest ih =>
    by_cases hk : kv.1 = k
    · simp [dset, hk, dget, Ne.symm h]
    · by_cases hk' : kv.1 = k'
      · simp [dset, hk, dget, hk', h]
      · simp [dset, hk, dget, hk', ih]

theorem dget_dsetIf_ne (c : Prop) [Decidable c] (d : List (String × JVal))
    (k k' : String) (v : JVal) (h : k' ≠ k) :
    dget (dsetIf c d k v) k' = dget d k' := by
  unfold dsetIf
  split
  · exact dget_dset_ne d k k' v h
  · rfl

/-- No line of the payload assembly stores a `'fee'` key, so looking
`'fee'` up in the assembled payload raises `KeyError 'fee'` whatever the
guards decided. -/
theorem dget_payload_fee (name description : String)
    (c1 c2 c3 c4 c5 : Prop) [Decidable c1] [Decidable c2] [Decidable c3]
    [Decidable c4] [Decidable c5] (v1 v2 v3 v4 v5 : JVal) :
    dget
      (dsetIf c5
        (dsetIf c4
          (dsetIf c3
            (dsetIf c2
              (dsetIf c1
                [("name", JVal.s name), ("description", JVal.s description)]
                "locationId" v1)
              "duration" v2)
            "serviceGroupId" v3)
          "public" v4)
        "options" v5) "fee" = Except.error (PyErr.keyError "fee") := by
  rw [dget_dsetIf_ne _ _ _ _ _ (by decide), dget_dsetIf_ne _ _ _ _ _ (by decide),
    dget_dsetIf_ne _ _ _ _ _ (by decide), dget_dsetIf_ne _ _ _ _ _ (by decide),
    dget_dsetIf_ne _ _ _ _ _ (by decide)]
  simp [dget]

end OnSched

namespace OnSched

/-- **C10.** Whenever at least one fee-related argument is truthy,
`create_service` raises `KeyError 'fee'` before any HTTP POST is issued
(empty POST trace): line 922 reads `payload['fee']` instead of assigning
`payload['fee'] = fee`, and no earlier line ever stores a `'fee'` key. -/
theorem create_service_fee_key_error (name description : String)
    (duration : Int) (location_id service_group_id : String)
    (public default_service duration_select : Bool)
    (duration_interval duration_min duration_max padding : Int)
    (consumer_padding : Bool) (fee_amount : Int) (fee_taxable : Bool)
    (cancellation_fee_amount : Int)
    (cancellation_fee_taxable nonrefundable : Bool)
    (hfee : fee_amount ≠ 0 ∨ fee_taxable = true ∨
      cancellation_fee_amount ≠ 0 ∨ cancellation_fee_taxable = true ∨
      nonrefundable = true) :
    create_serviceCall name description duration location_id service_group_id
        public default_service duration_select duration_interval duration_min
        duration_max padding consumer_padding fee_amount fee_taxable
        cancellation_fee_amount cancellation_fee_taxable nonrefundable =
      ([], Except.error (PyErr.keyError "fee")) := by
  unfold create_serviceCall create_service
  rw [if_pos hfee]
  simp [dget_payload_fee]

/-- **C10 witness.** A service with a 10-unit fee: the POST trace is empty
and `KeyError 'fee'` propagates. -/
theorem create_service_fee_key_error_witness :
    create_serviceCall "cut" "a haircut" 30 "" "" false false false 0 0 0 0
        false 10 false 0 false false =
      ([], Except.error (PyErr.keyError "fee")) :=
  create_service_fee_key_error "cut" "a haircut" 30 "" "" false false false
    0 0 0 0 false 10 false 0 false false (Or.inl (by decide))

end OnSched
